import Mathlib

/-!
Shallow embedding of the two demo web apps:
  - docker-compose-python/app.py (Flask): home, health, counter endpoints,
    a PostgreSQL connection builder and a Redis client builder;
  - python/demo/urls.py (Django): home and health views.
External calls (psycopg2 connect, redis ping, cursor execute) are modelled by
their outcome: Except.ok on success, Except.error with the exception message
str e on any raised exception. Response bodies are ordered key-value lists of
JSON-like values, as produced by jsonify and JsonResponse.
-/

/-- A JSON-like value occurring in a response body: a string or an integer. -/
inductive JsonVal where
  | str : String → JsonVal
  | num : Int → JsonVal
deriving DecidableEq, Repr

/-- An HTTP response: a status code and a JSON object body as an ordered list
of fields, in the order the handler builds them. -/
structure HttpResponse where
  status : Nat
  body : List (String × JsonVal)
deriving DecidableEq, Repr

/-- The process environment: os.getenv returns some value or none. -/
abbrev Env := String → Option String

/-- Keyword arguments app.py's get_db_connection passes to psycopg2.connect
(lines 12-18), each an os.getenv with the source's default. The
connect_timeout field is the timeout keyword psycopg2.connect accepts; the
source passes none, so no timeout is configured. -/
structure PgConnectArgs where
  host : String
  database : String
  user : String
  password : String
  port : String
  connect_timeout : Option Nat
deriving DecidableEq, Repr

/-- app.py get_db_connection: builds the psycopg2.connect arguments from the
environment with the hard-coded defaults. -/
def get_db_connection (env : Env) : PgConnectArgs :=
  { host := (env "DB_HOST").getD "postgres"
    database := (env "DB_NAME").getD "mydb"
    user := (env "DB_USER").getD "admin"
    password := (env "DB_PASSWORD").getD "secret123"
    port := (env "DB_PORT").getD "5432"
    connect_timeout := none }

/-- Keyword arguments app.py's get_redis passes to redis.Redis (lines 24-28).
The port is int(...) of the environment value, modelled by String.toInt?.
The socket_timeout field is the timeout keyword redis.Redis accepts; the
source passes none, so no timeout is configured. -/
structure RedisArgs where
  host : String
  port : Option Int
  decode_responses : Bool
  socket_timeout : Option Nat
deriving DecidableEq, Repr

/-- app.py get_redis: builds the redis.Redis arguments from the environment
with the hard-coded defaults. -/
def get_redis (env : Env) : RedisArgs :=
  { host := (env "REDIS_HOST").getD "redis"
    port := String.toInt? ((env "REDIS_PORT").getD "6379")
    decode_responses := true
    socket_timeout := none }

/-- app.py home (lines 32-39): constant message, the process hostname, and
APP_ENV with default development. jsonify responds 200. -/
def home (env : Env) (hostname : String) : HttpResponse :=
  { status := 200
    body := [("message", JsonVal.str "Hello from Docker Compose!"),
             ("hostname", JsonVal.str hostname),
             ("environment", JsonVal.str ((env "APP_ENV").getD "development"))] }

/-- The try/except pattern of app.py health (lines 45-57), applied once to the
database probe and once to the Redis probe: a probe that completes yields the
string connected; a probe that raises an exception with message e yields the
string error: e. -/
def probeStatus (outcome : Except String Unit) : String :=
  match outcome with
  | Except.ok _ => "connected"
  | Except.error e => "error: " ++ e

/-- app.py health (lines 42-63): probes the database (connect then close) and
Redis (client then ping), each wrapped in its own try/except; then responds
200 with a hard-coded status field healthy followed by the two per-dependency
status strings, database first, then redis. -/
def health (dbOutcome redisOutcome : Except String Unit) : HttpResponse :=
  { status := 200
    body := [("status", JsonVal.str "healthy"),
             ("database", JsonVal.str (probeStatus dbOutcome)),
             ("redis", JsonVal.str (probeStatus redisOutcome))] }

/-- The Redis key space: a finite partial map from key to stored integer,
modelled as a function to Option Int. -/
structure RedisStore where
  vals : String → Option Int

/-- Redis INCR semantics: an absent key is treated as 0; the key is set to its
prior value plus one and that new value is returned, in one atomic store
operation. -/
def incr (s : RedisStore) (k : String) : Int × RedisStore :=
  let v := (s.vals k).getD 0 + 1
  (v, ⟨fun q => if q = k then some v else s.vals q⟩)

/-- The Redis connection as the counter handler sees it: either the store is
up, or every command raises an exception with message e. -/
inductive RedisConn where
  | up : RedisStore → RedisConn
  | down : String → RedisConn

/-- app.py counter (lines 66-71): gets a Redis client and issues exactly one
INCR on the key hits, responding 200 with the returned value. There is no
try/except: if the store is unreachable the client exception propagates out
of the handler. -/
def counter (r : RedisConn) : Except String (HttpResponse × RedisStore) :=
  match r with
  | RedisConn.down e => Except.error e
  | RedisConn.up s =>
      let res := incr s "hits"
      Except.ok ({ status := 200
                   body := [("visits", JsonVal.num res.1)] }, res.2)

/-- Flask's handling of an exception that escapes a route handler: the
framework returns an HTTP 500 Internal Server Error response; it performs no
mapping to 503 and attaches no DependencyUnavailable detail. -/
def flaskDispatch (h : Except String HttpResponse) : HttpResponse :=
  match h with
  | Except.ok resp => resp
  | Except.error _ => { status := 500, body := [] }

/-- The counter endpoint as seen over HTTP: the handler result passed through
Flask's dispatch. -/
def counterEndpoint (r : RedisConn) : HttpResponse :=
  flaskDispatch ((counter r).map Prod.fst)

/-- A store in which no key has ever been set. -/
def freshStore : RedisStore := ⟨fun _ => none⟩

/-- n sequential calls of the counter handler against an up store: the list of
response bodies produced, and the final store. -/
def counterRun : Nat → RedisStore → List (List (String × JsonVal)) × RedisStore
  | 0, s => ([], s)
  | Nat.succ n, s =>
      match counter (RedisConn.up s) with
      | Except.ok (resp, s1) =>
          let rest := counterRun n s1
          (resp.body :: rest.1, rest.2)
      | Except.error _ => ([], s)

/-- n increments of the key hits, serialized by the store (each counter call
is a single atomic INCR, so any concurrent execution of n calls is some
serialization, i.e. this sequence): the list of returned values in store
order, and the final store. -/
def runIncrs : Nat → RedisStore → List Int × RedisStore
  | 0, s => ([], s)
  | Nat.succ n, s =>
      let r := incr s "hits"
      let rest := runIncrs n r.2
      (r.1 :: rest.1, rest.2)

/-- The try/except around cursor.execute in urls.py home (lines 10-15): same
shape as the Flask probe status mapping. -/
def djangoDbStatus (outcome : Except String Unit) : String :=
  match outcome with
  | Except.ok _ => "connected"
  | Except.error e => "error: " ++ e

/-- urls.py home (lines 8-22): constant message, hostname, APP_ENV with
default development, and a database field from the SELECT 1 probe. -/
def djangoHome (env : Env) (hostname : String) (dbOutcome : Except String Unit) :
    HttpResponse :=
  { status := 200
    body := [("message", JsonVal.str "Hello from Django!"),
             ("hostname", JsonVal.str hostname),
             ("environment", JsonVal.str ((env "APP_ENV").getD "development")),
             ("database", JsonVal.str (djangoDbStatus dbOutcome))] }

/-- urls.py health (lines 24-25): a constant response. The view body references
no dependency; the two outcome arguments model the state of the database and
cache in the world and are ignored, exactly as the source consults neither. -/
def djangoHealth (_dbOutcome _cacheOutcome : Except String Unit) : HttpResponse :=
  { status := 200, body := [("status", JsonVal.str "healthy")] }

/-- Claim C1, counterexample: with the database probe succeeding and the cache
probe failing, the status field of the health body is healthy, not degraded —
app.py hard-codes the string healthy, so no set of probe outcomes ever yields
degraded. -/
theorem health_degraded_claim_false :
    (health (Except.ok ()) (Except.error "Connection refused")).body.lookup "status"
        = some (JsonVal.str "healthy") ∧
    (health (Except.ok ()) (Except.error "Connection refused")).body.lookup "status"
        ≠ some (JsonVal.str "degraded") := by
  exact ⟨rfl, by decide⟩

/-- Claim C1, amended: for every pair of probe outcomes the aggregate body's
status field is the constant healthy; per-dependency reachability is reported
only in the database and redis fields, as connected on success and as
error: detail on failure. -/
theorem health_status_always_healthy (d r : Except String Unit) :
    (health d r).body.lookup "status" = some (JsonVal.str "healthy") ∧
    (health d r).body.lookup "database" = some (JsonVal.str (probeStatus d)) ∧
    (health d r).body.lookup "redis" = some (JsonVal.str (probeStatus r)) :=
  ⟨rfl, rfl, rfl⟩

/-- Claim C1 amended, witness: concrete outcomes evaluating the three body
fields. -/
theorem health_status_always_healthy_witness :
    (health (Except.ok ()) (Except.error "down")).body.lookup "status"
      = some (JsonVal.str "healthy") :=
  (health_status_always_healthy (Except.ok ()) (Except.error "down")).1

/-- Claim C2, counterexample: with the store down, the counter endpoint's HTTP
status is 500 (the client exception escapes the handler and Flask returns
Internal Server Error), not the claimed 503. -/
theorem counter_503_claim_false :
    (counterEndpoint (RedisConn.down "Connection refused")).status = 500 ∧
    (counterEndpoint (RedisConn.down "Connection refused")).status ≠ 503 := by
  exact ⟨rfl, by decide⟩

/-- Claim C2, amended: if the store is unreachable the handler fails by
propagating the client exception unchanged — it produces no response and hence
never falls back to a local counter — and Flask surfaces it as HTTP 500; the
counter endpoint is the only one that can carry an error status, since home
and health respond 200 on every input. -/
theorem counter_store_down_propagates (e : String) (env : Env) (hn : String)
    (d r : Except String Unit) :
    counter (RedisConn.down e) = Except.error e ∧
    (counterEndpoint (RedisConn.down e)).status = 500 ∧
    (home env hn).status = 200 ∧
    (health d r).status = 200 :=
  ⟨rfl, rfl, rfl, rfl⟩

/-- Claim C2 amended, witness: concrete store-down input and concrete inputs
for the always-200 endpoints. -/
theorem counter_store_down_propagates_witness :
    counter (RedisConn.down "refused") = Except.error "refused" :=
  (counter_store_down_propagates "refused" (fun _ => none) "h"
      (Except.ok ()) (Except.ok ())).1

/-- Claim C4: for every combination of probe outcomes, including exceptions
from either client, the health handler responds 200 with the well-formed
three-field body — both probes are wrapped in try/except, so every failure is
converted to a body field and no exception escapes into the HTTP layer (the
handler is a total function of the outcomes). -/
theorem health_always_200_wellformed (d r : Except String Unit) :
    (health d r).status = 200 ∧
    (health d r).body.map Prod.fst = ["status", "database", "redis"] :=
  ⟨rfl, rfl⟩

/-- Claim C4, witness: both clients raising still yields a 200 three-field
report. -/
theorem health_always_200_wellformed_witness :
    (health (Except.error "db boom") (Except.error "redis boom")).status = 200 :=
  (health_always_200_wellformed (Except.error "db boom") (Except.error "redis boom")).1

/-- Claim C5: for every pair of probe outcomes the per-dependency fields occur
in input order — database at position 1, redis at position 2 of the body —
independent of the outcomes; the handler probes sequentially and builds the
body in a fixed order. -/
theorem health_results_input_order (d r : Except String Unit) :
    ((health d r).body.map Prod.fst).indexOf "database" = 1 ∧
    ((health d r).body.map Prod.fst).indexOf "redis" = 2 :=
  ⟨rfl, rfl⟩

/-- Claim C5, witness: input ordering holds with the first-listed dependency
failing and the second succeeding. -/
theorem health_results_input_order_witness :
    ((health (Except.error "slow") (Except.ok ())).body.map Prod.fst).indexOf "database"
      = 1 :=
  (health_results_input_order (Except.error "slow") (Except.ok ())).1

/-- Claim C3: each successful counter call issues exactly one INCR against the
store — the handler result is literally one application of incr to the key
hits — the returned and stored value is the prior stored value plus exactly 1,
and on a fresh store three sequential calls respond with bodies visits 1,
visits 2, visits 3 in order. -/
theorem counter_one_incr_and_123 (s : RedisStore) :
    counter (RedisConn.up s) =
      Except.ok ({ status := 200
                   body := [("visits", JsonVal.num ((s.vals "hits").getD 0 + 1))] },
                 (incr s "hits").2) ∧
    (incr s "hits").2.vals "hits" = some ((s.vals "hits").getD 0 + 1) ∧
    (counterRun 3 freshStore).1 =
      [[("visits", JsonVal.num 1)],
       [("visits", JsonVal.num 2)],
       [("visits", JsonVal.num 3)]] :=
  ⟨rfl, by simp [incr], rfl⟩

/-- Claim C6: a probe that completes yields the status connected with no error
detail, and a probe raising an exception with message e yields the status
error: e — a non-empty detail string carrying the underlying cause e. -/
theorem probe_status_connected_or_detail (e : String) :
    probeStatus (Except.ok ()) = "connected" ∧
    probeStatus (Except.error e) = "error: " ++ e ∧
    0 < (probeStatus (Except.error e)).length := by
  refine ⟨rfl, rfl, ?_⟩
  show 0 < ("error: " ++ e).length
  rw [String.length_append]
  have h7 : "error: ".length = 7 := rfl
  omega

/-- Claim C6, witness: a concrete refused-connection message produces the
non-empty detail naming it. -/
theorem probe_status_connected_or_detail_witness :
    probeStatus (Except.error "Connection refused")
      = "error: " ++ "Connection refused" :=
  (probe_status_connected_or_detail "Connection refused").2.1

/-- Claim C7, counterexample: neither probe applies a configured timeout — the
psycopg2.connect arguments built by get_db_connection carry no
connect_timeout and the redis.Redis arguments built by get_redis carry no
socket_timeout, under the default environment. -/
theorem probe_timeout_claim_false :
    (get_db_connection (fun _ => none)).connect_timeout = none ∧
    (get_redis (fun _ => none)).socket_timeout = none :=
  ⟨rfl, rfl⟩

/-- Claim C7, amended: no timeout is configured on either dependency client
for any environment, so blocking is bounded only by client-library and OS
defaults; a probe attempt that does fail with an exception, timeouts
included, is still reported as unreachable with an error detail rather than
crashing the handler. -/
theorem probes_no_timeout_configured (env : Env) (e : String) :
    (get_db_connection env).connect_timeout = none ∧
    (get_redis env).socket_timeout = none ∧
    probeStatus (Except.error e) = "error: " ++ e :=
  ⟨rfl, rfl, rfl⟩

/-- Claim C7 amended, witness: concrete environment and a concrete timeout
exception message. -/
theorem probes_no_timeout_configured_witness :
    (get_db_connection (fun _ => some "example")).connect_timeout = none :=
  (probes_no_timeout_configured (fun _ => some "example") "timed out").1

/-- Helper: the values returned by n serialized increments of hits starting
from store s are exactly prior+1, prior+2, ..., prior+n in order. -/
theorem runIncrs_vals (n : Nat) (s : RedisStore) :
    (runIncrs n s).1
      = (List.range n).map (fun i : Nat => (s.vals "hits").getD 0 + 1 + (i : Int)) := by
  induction n generalizing s with
  | zero => simp [runIncrs]
  | succ n ih =>
    rw [List.range_succ_eq_map]
    simp only [runIncrs, incr, List.map_cons, List.map_map]
    refine List.cons_eq_cons.mpr ⟨by simp, ?_⟩
    rw [ih]
    refine List.map_congr_left ?_
    intro i _
    simp only [Function.comp, if_true, Option.getD_some]
    push_cast
    ring

/-- Helper: the values returned by n serialized increments are pairwise
distinct. -/
theorem runIncrs_pairwise (n : Nat) (s : RedisStore) :
    (runIncrs n s).1.Pairwise (fun a b => a ≠ b) := by
  rw [runIncrs_vals]
  refine List.Pairwise.map _ ?_ (List.pairwise_lt_range n)
  intro a b hab
  omega

/-- Claim C8: the values returned by n store-serialized increments of the key
hits — each counter call issues a single atomic INCR, so any execution under
n concurrent callers is some such serialization — are exactly the consecutive
run prior+1, ..., prior+n and are pairwise distinct; and each call's entire
effect is one application of incr, a single atomic round trip, never a
read-then-add-then-write sequence. -/
theorem concurrent_counter_values (n : Nat) (s : RedisStore) :
    (runIncrs n s).1
      = (List.range n).map (fun i : Nat => (s.vals "hits").getD 0 + 1 + (i : Int)) ∧
    (runIncrs n s).1.Pairwise (fun a b => a ≠ b) ∧
    ∀ t : RedisStore,
      counter (RedisConn.up t)
        = Except.ok ({ status := 200
                       body := [("visits", JsonVal.num ((incr t "hits").1))] },
                     (incr t "hits").2) :=
  ⟨runIncrs_vals n s, runIncrs_pairwise n s, fun _ => rfl⟩

/-- Claim C9, counterexample: the Django app's GET / body does not consist of
the fields message, hostname and environment — it carries a fourth field,
database. -/
theorem home_fields_claim_false :
    (djangoHome (fun _ => none) "h" (Except.ok ())).body.map Prod.fst
      ≠ ["message", "hostname", "environment"] := by
  decide

/-- Claim C9, amended: both GET / handlers respond 200 with environment taken
from APP_ENV defaulting to development; the Flask body consists of exactly
message, hostname and environment, while the Django body carries those three
plus a database field. -/
theorem home_endpoints_fields (env : Env) (hn : String) (d : Except String Unit) :
    (home env hn).status = 200 ∧
    (home env hn).body.map Prod.fst = ["message", "hostname", "environment"] ∧
    (home env hn).body.lookup "environment"
      = some (JsonVal.str ((env "APP_ENV").getD "development")) ∧
    (djangoHome env hn d).status = 200 ∧
    (djangoHome env hn d).body.map Prod.fst
      = ["message", "hostname", "environment", "database"] ∧
    (djangoHome env hn d).body.lookup "environment"
      = some (JsonVal.str ((env "APP_ENV").getD "development")) :=
  ⟨rfl, rfl, rfl, rfl, rfl, rfl⟩

/-- Claim C10: the Django health view returns the constant 200 body with the
single field status = healthy, identical for every state of the database and
cache — the view consults no dependency. -/
theorem django_health_constant (d c d1 c1 : Except String Unit) :
    djangoHealth d c = { status := 200, body := [("status", JsonVal.str "healthy")] } ∧
    djangoHealth d c = djangoHealth d1 c1 :=
  ⟨rfl, rfl⟩

/-- Claim C10, witness: concrete dependency states, one all-up and one
all-down, give the same constant response. -/
theorem django_health_constant_witness :
    djangoHealth (Except.ok ()) (Except.ok ())
      = djangoHealth (Except.error "db down") (Except.error "cache down") :=
  (django_health_constant (Except.ok ()) (Except.ok ())
      (Except.error "db down") (Except.error "cache down")).2
